import Mathlib

/-
Shallow embedding of `src/framework/ingestion/10_ingestion_dbx.py`
(a single-file CSV ingestion step) and verification of its specification.

Modelling conventions:
* A CSV row (as produced by `csv.DictReader`) is an association list from
  column name to an optional string; `none` as a value stands for the Python
  value `None` (the `restval` a `DictReader` inserts when a data line is shorter
  than the header).  A key absent from the list stands for a column the
  header never declared.
* Python exceptions are modelled with `Except PyError`.
* The filesystem is an explicit state (`FS`); the wall clock and the `ENV`
  environment variable enter `run_ingestion` as parameters.
-/

deriving instance DecidableEq for Except

/-- The Python exceptions this program can raise. -/
inductive PyError where
  | valueError : PyError
  | typeError : PyError
  | fileNotFound : String → PyError
deriving DecidableEq, Repr

/-- The `issues` dictionary built by `detect_issues`:
three non-negative counters. -/
structure IssueCounters where
  duplicate_ids : Nat
  missing_name : Nat
  underage : Nat
deriving DecidableEq, Repr

/-- A row: mapping from column name to optional string value
(`none` = Python `None`). -/
abbrev Row := List (String × Option String)

/-- Python `r.get(k)` (default `None`): `none` when the key is absent or the
stored value is `None`. -/
def Row.get (r : Row) (k : String) : Option String :=
  match r.lookup k with
  | none => none
  | some v => v

/-- Python `r.get(k, d)` with a string default: the default is used only when
the key is absent; a stored `None` is returned as `none`. -/
def Row.getD (r : Row) (k : String) (d : String) : Option String :=
  match r.lookup k with
  | none => some d
  | some v => v

/-- Python `x or ""` for `x` a string-or-`None`: `None` and `""` both yield
`""`. -/
def pyOrEmpty : Option String → String
  | none => ""
  | some s => s

/-- Characters that Python `str.strip()` removes (ASCII whitespace; the rarer
Unicode space characters are not modelled, no claim depends on them). -/
def isPySpace (c : Char) : Bool :=
  c = ' ' || c = '\t' || c = '\n' || c = '\r' || c = '\x0b' || c = '\x0c'

/-- Python `s.strip()`: drop leading and trailing whitespace. -/
def pyStrip (s : String) : String :=
  ⟨((s.data.dropWhile isPySpace).reverse.dropWhile isPySpace).reverse⟩

/-- Numeric value of a digit run, most significant digit first. -/
def digitsVal (l : List Char) : Nat :=
  l.foldl (fun n c => 10 * n + (c.toNat - 48)) 0

/-- Python `int(s)` on a string, as a parse: optional surrounding whitespace,
optional sign, then a non-empty digit run.  (Underscore separators and
non-ASCII digits, which CPython also accepts, are not modelled; no claim
depends on them.)  `none` models `ValueError`. -/
def pyParseInt (s : String) : Option Int :=
  let t := (pyStrip s).data
  match t with
  | '-' :: core =>
    if !core.isEmpty && core.all Char.isDigit then
      some (-(digitsVal core : Int))
    else none
  | '+' :: core =>
    if !core.isEmpty && core.all Char.isDigit then some (digitsVal core : Int)
    else none
  | core =>
    if !core.isEmpty && core.all Char.isDigit then some (digitsVal core : Int)
    else none

/-- Python `int(x)` on a string-or-`None` argument: `int(None)` raises
`TypeError`; a non-numeric string raises `ValueError`. -/
def pyInt : Option String → Except PyError Int
  | none => .error .typeError
  | some s =>
    match pyParseInt s with
    | some n => .ok n
    | none => .error .valueError

/-- `(r.get("customer_id") or "").strip()`. -/
def cidOf (r : Row) : String := pyStrip (pyOrEmpty (r.get "customer_id"))

/-- `(r.get("name") or "").strip()`. -/
def nameOf (r : Row) : String := pyStrip (pyOrEmpty (r.get "name"))

/-- Increment the `duplicate_ids` counter. -/
def incDup (i : IssueCounters) : IssueCounters :=
  ⟨i.duplicate_ids + 1, i.missing_name, i.underage⟩

/-- Increment the `missing_name` counter. -/
def incMissing (i : IssueCounters) : IssueCounters :=
  ⟨i.duplicate_ids, i.missing_name + 1, i.underage⟩

/-- Increment the `underage` counter. -/
def incUnderage (i : IssueCounters) : IssueCounters :=
  ⟨i.duplicate_ids, i.missing_name, i.underage + 1⟩

/-- The duplicate-id and missing-name blocks of the loop body of
`detect_issues`: state is the counters together with the `seen_ids` set
(modelled as the list of already-recorded ids). -/
def stepIdName (st : IssueCounters × List String) (r : Row) :
    IssueCounters × List String :=
  let st1 :=
    if cidOf r ∈ st.2 then (incDup st.1, st.2)
    else (st.1, cidOf r :: st.2)
  if nameOf r = "" then (incMissing st1.1, st1.2) else st1

/-- The `age` block of the loop body: `try: if int(r.get("age", "0")) < 18 ...
except ValueError: ...`.  Only `ValueError` is caught; `TypeError`
propagates. -/
def stepAge (issues : IssueCounters) (r : Row) : Except PyError IssueCounters :=
  match pyInt (r.getD "age" "0") with
  | .ok n => .ok (if n < 18 then incUnderage issues else issues)
  | .error .valueError => .ok (incUnderage issues)
  | .error e => .error e

/-- One iteration of the `for r in rows` loop of `detect_issues`. -/
def detectStep (st : IssueCounters × List String) (r : Row) :
    Except PyError (IssueCounters × List String) :=
  let st1 := stepIdName st r
  match stepAge st1.1 r with
  | .ok i => .ok (i, st1.2)
  | .error e => .error e

/-- The whole `for` loop of `detect_issues`. -/
def detectLoop : List Row → IssueCounters × List String →
    Except PyError (IssueCounters × List String)
  | [], st => .ok st
  | r :: rs, st =>
    match detectStep st r with
    | .ok st1 => detectLoop rs st1
    | .error e => .error e

/-- `detect_issues(rows)`: counters start at zero, `seen_ids` starts empty,
then one pass over the rows; an uncaught exception aborts the whole call. -/
def detect_issues (rows : List Row) : Except PyError IssueCounters :=
  match detectLoop rows (⟨0, 0, 0⟩, []) with
  | .ok st => .ok st.1
  | .error e => .error e

/-- Split a character list at every occurrence of `sep` (the separator is
dropped; `n` separators yield `n+1` pieces). -/
def splitOnChar (sep : Char) : List Char → List (List Char)
  | [] => [[]]
  | c :: cs =>
    let r := splitOnChar sep cs
    if c = sep then [] :: r
    else (c :: r.headD []) :: r.tail

/-- The lines of the source text (split at newlines). -/
def splitLines (content : String) : List String :=
  (splitOnChar '\n' content.data).map String.mk

/-- The comma-separated fields of one CSV line. -/
def splitFields (line : String) : List String :=
  (splitOnChar ',' line.data).map String.mk

/-- Pair header column names with the fields of one data line, as
`csv.DictReader` does: a line shorter than the header pads the remaining
columns with `None` (`restval`); extra fields beyond the header are not
reachable through any string key and are dropped. -/
def zipHeader : List String → List String → Row
  | [], _ => []
  | c :: cs, [] => (c, none) :: zipHeader cs []
  | c :: cs, v :: vs => (c, some v) :: zipHeader cs vs

/-- `list(csv.DictReader(f))`: the first non-empty line names the columns,
every later non-empty line becomes one row.  (Quoting/escaping is not
modelled — no claim depends on it; blank lines are skipped as `DictReader`
skips empty rows.) -/
def parseCsv (content : String) : List Row :=
  match (splitLines content).filter (fun l => l ≠ "") with
  | [] => []
  | header :: dataLines =>
    let cols := splitFields header
    dataLines.map (fun line => zipHeader cols (splitFields line))

/-- The filesystem state: the set of directories that exist and a map from
file path to file content (most recent write first). -/
structure FS where
  dirs : List String
  files : List (String × String)
deriving DecidableEq, Repr

/-- `Path.mkdir(parents=True, exist_ok=True)`. -/
def FS.mkdirp (fs : FS) (d : String) : FS :=
  if d ∈ fs.dirs then fs else ⟨d :: fs.dirs, fs.files⟩

/-- Content of the file at `p`, `none` when no such file exists. -/
def FS.read (fs : FS) (p : String) : Option String :=
  fs.files.lookup p

/-- Write (create or overwrite) the file at `p`. -/
def FS.writeFile (fs : FS) (p c : String) : FS :=
  ⟨fs.dirs, (p, c) :: fs.files⟩

/-- `open(p, "a")` followed by a write: append to the file at `p`, creating
it when absent. -/
def FS.appendFile (fs : FS) (p c : String) : FS :=
  fs.writeFile p ((fs.read p).getD "" ++ c)

/-- `SOURCE_FILE = Path("data/source/customers.csv")`. -/
def SOURCE_FILE : String := "data/source/customers.csv"

/-- `LANDING_DIR = Path("data/landing")`. -/
def LANDING_DIR : String := "data/landing"

/-- `LOGS_DIR = Path("logs")`. -/
def LOGS_DIR : String := "logs"

/-- The log file `LOGS_DIR / "ingestion.log"`. -/
def logFilePath : String := LOGS_DIR ++ "/ingestion.log"

/-- `LANDING_DIR / f"customers_\x7bts\x7d.csv"`. -/
def targetPath (ts : String) : String :=
  LANDING_DIR ++ "/customers_" ++ ts ++ ".csv"

/-- The fixed text preceding the environment label in the log line. -/
def envTag : String := "[OK] Ingestion completed | ENV="

/-- The part of the summary text after the environment label. -/
def mkLogMsgRest (ts target : String) (n : Nat) (issues : IssueCounters) :
    String :=
  "\nSource: " ++ SOURCE_FILE ++
  "\nTarget: " ++ target ++
  "\nRows ingested: " ++ toString n ++
  "\nIssues detected:\n  - Duplicate customer_id: " ++
  toString issues.duplicate_ids ++
  "\n  - Missing name: " ++ toString issues.missing_name ++
  "\n  - Underage customers: " ++ toString issues.underage ++
  "\nTimestamp: " ++ ts ++
  "\n------------------------------------\n"

/-- The `log_msg` f-string of `run_ingestion`, split as
constant-prefix / environment label / remainder. -/
def mkLogMsg (env ts target : String) (n : Nat) (issues : IssueCounters) :
    String :=
  envTag ++ env ++ mkLogMsgRest ts target n issues

/-- `run_ingestion()`.  `env` models `os.getenv("ENV", "dev")`; `ts` models
`datetime.utcnow().strftime("%Y%m%d_%H%M%S")` (the clock input).  The
returned string is the summary that is both printed and appended to the
log; an `Except.error` models an uncaught exception, with the state at the
moment it was raised. -/
def run_ingestion (env ts : String) (fs : FS) : FS × Except PyError String :=
  let fs1 := (fs.mkdirp LOGS_DIR).mkdirp LANDING_DIR
  match fs1.read SOURCE_FILE with
  | none => (fs1, .error (.fileNotFound ("Source file not found: " ++ SOURCE_FILE)))
  | some content =>
    let rows := parseCsv content
    match detect_issues rows with
    | .error e => (fs1, .error e)
    | .ok issues =>
      let target := targetPath ts
      let fs2 := fs1.writeFile target content
      let msg := mkLogMsg env ts target rows.length issues
      let fs3 := fs2.appendFile logFilePath msg
      (fs3, .ok msg)

/-! ### Helper lemmas about the loop body -/

/-- `FS.mkdirp` never touches files. -/
theorem FS.mkdirp_files (fs : FS) (d : String) : (fs.mkdirp d).files = fs.files := by
  unfold FS.mkdirp; split <;> rfl

/-- How the id/name block changes `missing_name`. -/
theorem stepIdName_missing (st : IssueCounters × List String) (r : Row) :
    (stepIdName st r).1.missing_name =
      st.1.missing_name + (if nameOf r = "" then 1 else 0) := by
  unfold stepIdName
  by_cases h1 : cidOf r ∈ st.2 <;> by_cases h2 : nameOf r = "" <;>
    simp [h1, h2, incDup, incMissing]

/-- How the id/name block changes `duplicate_ids`. -/
theorem stepIdName_dup (st : IssueCounters × List String) (r : Row) :
    (stepIdName st r).1.duplicate_ids =
      st.1.duplicate_ids + (if cidOf r ∈ st.2 then 1 else 0) := by
  unfold stepIdName
  by_cases h1 : cidOf r ∈ st.2 <;> by_cases h2 : nameOf r = "" <;>
    simp [h1, h2, incDup, incMissing]

/-- How the id/name block changes the seen-ids set. -/
theorem stepIdName_seen (st : IssueCounters × List String) (r : Row) :
    (stepIdName st r).2 =
      if cidOf r ∈ st.2 then st.2 else cidOf r :: st.2 := by
  unfold stepIdName
  by_cases h1 : cidOf r ∈ st.2 <;> by_cases h2 : nameOf r = "" <;>
    simp [h1, h2, incDup, incMissing]

/-- The age block never changes `duplicate_ids` or `missing_name`. -/
theorem stepAge_ok_preserves {i i' : IssueCounters} {r : Row}
    (h : stepAge i r = .ok i') :
    i'.duplicate_ids = i.duplicate_ids ∧ i'.missing_name = i.missing_name := by
  unfold stepAge at h
  cases hp : pyInt (r.getD "age" "0") with
  | ok n =>
    rw [hp] at h
    injection h with h
    subst h
    split <;> simp [incUnderage]
  | error e =>
    rw [hp] at h
    cases e with
    | valueError => injection h with h; subst h; simp [incUnderage]
    | typeError => exact absurd h (by simp)
    | fileNotFound m => exact absurd h (by simp)

/-- A successful loop iteration: the seen set and `duplicate_ids` are those
computed by the id/name block. -/
theorem detectStep_ok_dup_seen {st st' : IssueCounters × List String} {r : Row}
    (h : detectStep st r = .ok st') :
    st'.1.duplicate_ids =
        st.1.duplicate_ids + (if cidOf r ∈ st.2 then 1 else 0) ∧
    st'.2 = (if cidOf r ∈ st.2 then st.2 else cidOf r :: st.2) := by
  simp only [detectStep] at h
  cases hA : stepAge (stepIdName st r).1 r with
  | error e => rw [hA] at h; exact absurd h (by simp)
  | ok i =>
    rw [hA] at h
    injection h with h
    subst h
    refine ⟨?_, stepIdName_seen st r⟩
    have := (stepAge_ok_preserves hA).1
    simpa [this] using stepIdName_dup st r

/-! ### Claims about single rows: C2, C5, C10, C8, C1 -/

/-- C2: in `detect_issues`, an `age` value parsing to an integer `≥ 18`
leaves `underage` unchanged; a value parsing to an integer `< 18`, or
failing to parse, adds exactly one; an absent `age` field is read as the
literal `"0"`, hence counted as underage. -/
theorem C2_age_underage (r : Row) (i : IssueCounters) :
    (∀ s n, r.getD "age" "0" = some s → pyParseInt s = some n → 18 ≤ n →
        stepAge i r = .ok i) ∧
    (∀ s n, r.getD "age" "0" = some s → pyParseInt s = some n → n < 18 →
        stepAge i r = .ok (incUnderage i)) ∧
    (∀ s, r.getD "age" "0" = some s → pyParseInt s = none →
        stepAge i r = .ok (incUnderage i)) ∧
    (r.lookup "age" = none → stepAge i r = .ok (incUnderage i)) := by
  refine ⟨?_, ?_, ?_, ?_⟩
  · intro s n hs hp hn
    simp [stepAge, pyInt, hs, hp, not_lt.mpr hn]
  · intro s n hs hp hn
    simp [stepAge, pyInt, hs, hp, hn]
  · intro s hs hp
    simp [stepAge, pyInt, hs, hp]
  · intro h
    have hs : r.getD "age" "0" = some "0" := by simp [Row.getD, h]
    have hp : pyParseInt "0" = some 0 := by decide
    simp [stepAge, pyInt, hs, hp]

/-- Witness for C2: a concrete adult, minor, unparsable and absent age. -/
theorem C2_age_underage_witness :
    stepAge ⟨0, 0, 0⟩ [("age", some "30")] = .ok ⟨0, 0, 0⟩ ∧
    stepAge ⟨0, 0, 0⟩ [("age", some "15")] = .ok ⟨0, 0, 1⟩ ∧
    stepAge ⟨0, 0, 0⟩ [("age", some "abc")] = .ok ⟨0, 0, 1⟩ ∧
    stepAge ⟨0, 0, 0⟩ [] = .ok ⟨0, 0, 1⟩ := by
  refine ⟨?_, ?_, ?_, ?_⟩
  · exact (C2_age_underage [("age", some "30")] ⟨0, 0, 0⟩).1 "30" 30
      (by decide) (by decide) (by decide)
  · exact (C2_age_underage [("age", some "15")] ⟨0, 0, 0⟩).2.1 "15" 15
      (by decide) (by decide) (by decide)
  · exact (C2_age_underage [("age", some "abc")] ⟨0, 0, 0⟩).2.2.1 "abc"
      (by decide) (by decide)
  · exact (C2_age_underage [] ⟨0, 0, 0⟩).2.2.2 (by decide)

/-- C5: a `name` that is empty after trimming adds exactly one to
`missing_name`; a name non-empty after trimming adds nothing. -/
theorem C5_missing_name (r : Row) (st : IssueCounters × List String) :
    (nameOf r = "" →
        (stepIdName st r).1.missing_name = st.1.missing_name + 1) ∧
    (nameOf r ≠ "" →
        (stepIdName st r).1.missing_name = st.1.missing_name) := by
  constructor <;> intro h <;> simp [stepIdName_missing, h]

/-- Witness for C5: a whitespace-only name counts, a real name does not. -/
theorem C5_missing_name_witness :
    (stepIdName (⟨0, 0, 0⟩, []) [("name", some "   ")]).1.missing_name = 1 ∧
    (stepIdName (⟨0, 0, 0⟩, []) [("name", some " Bo ")]).1.missing_name = 0 := by
  constructor
  · exact (C5_missing_name [("name", some "   ")] (⟨0, 0, 0⟩, [])).1 (by decide)
  · exact (C5_missing_name [("name", some " Bo ")] (⟨0, 0, 0⟩, [])).2 (by decide)

/-- C10 (implicit): a row whose `name` field is absent, or present as `None`,
is treated exactly like an empty string and adds one to `missing_name`. -/
theorem C10_null_name (r : Row) (st : IssueCounters × List String)
    (h : r.lookup "name" = none ∨ r.lookup "name" = some none) :
    (stepIdName st r).1.missing_name = st.1.missing_name + 1 := by
  have hn : nameOf r = "" := by
    rcases h with h | h <;> simp [nameOf, Row.get, h] <;> decide
  simp [stepIdName_missing, hn]

/-- Witness for C10: an absent `name` key and a `None` name value. -/
theorem C10_null_name_witness :
    (stepIdName (⟨0, 0, 0⟩, []) []).1.missing_name = 1 ∧
    (stepIdName (⟨0, 0, 0⟩, []) [("name", none)]).1.missing_name = 1 := by
  constructor
  · exact C10_null_name [] (⟨0, 0, 0⟩, []) (.inl (by decide))
  · exact C10_null_name [("name", none)] (⟨0, 0, 0⟩, []) (.inr (by decide))

/-- Two successive invocations of `detect_issues` on the same rows. -/
def detectTwice (rows : List Row) :
    Except PyError IssueCounters × Except PyError IssueCounters :=
  (detect_issues rows, detect_issues rows)

/-- C8: `detect_issues` is a pure function of its row sequence — its counters
and `seen_ids` are created afresh inside each call (visible in the
definition of `detect_issues`), so a second run returns the same value. -/
theorem C8_detect_pure (rows : List Row) :
    (detectTwice rows).1 = (detectTwice rows).2 ∧
    (detectTwice rows).1 = detect_issues rows :=
  ⟨rfl, rfl⟩

/-- C1 (code bug): a row whose `age` column holds `None` — as
`csv.DictReader` yields for a data line shorter than the header — makes
`int(None)` raise `TypeError`, which `except ValueError` does not catch, so
the exception escapes `detect_issues`; a non-numeric string, by contrast,
is absorbed into the counters as documented. -/
theorem C1_none_age_raises :
    detect_issues [[("age", (none : Option String))]] = .error .typeError ∧
    detect_issues [[("age", some "x")]] = .ok ⟨0, 1, 1⟩ := by
  decide

/-! ### C3: duplicate counting -/

/-- Number of ids in `l` that are new on first sight, scanning left to right
with `seen` already recorded. -/
def countNew : List String → List String → Nat
  | _, [] => 0
  | seen, c :: cs =>
    if c ∈ seen then countNew seen cs else 1 + countNew (c :: seen) cs

/-- `countNew` counts exactly the distinct values of `l` outside `seen`. -/
theorem countNew_card (l : List String) :
    ∀ seen : List String,
      countNew seen l = (l.toFinset \ seen.toFinset).card := by
  induction l with
  | nil => intro seen; simp [countNew]
  | cons c cs ih =>
    intro seen
    by_cases h : c ∈ seen
    · have hc : c ∈ seen.toFinset := List.mem_toFinset.mpr h
      simp only [countNew, if_pos h, ih, List.toFinset_cons,
        Finset.insert_sdiff_of_mem _ hc]
    · have hc : c ∉ seen.toFinset := fun hc => h (List.mem_toFinset.mp hc)
      simp only [countNew, if_neg h, ih, List.toFinset_cons,
        Finset.insert_sdiff_of_not_mem _ hc, Finset.sdiff_insert]
      set X := cs.toFinset \ seen.toFinset with hX
      by_cases hx : c ∈ X
      · rw [Finset.insert_eq_self.mpr hx]
        have := Finset.card_erase_add_one hx
        omega
      · rw [Finset.erase_eq_of_not_mem hx, Finset.card_insert_of_not_mem hx]
        omega

/-- Loop invariant: a successful pass adds one to `duplicate_ids` for every
row whose trimmed id is not new, i.e. `duplicate_ids` grows by the number
of rows minus the number of new ids. -/
theorem detectLoop_dup (rows : List Row) :
    ∀ st st' : IssueCounters × List String,
      detectLoop rows st = .ok st' →
      st'.1.duplicate_ids + countNew st.2 (rows.map cidOf) =
        st.1.duplicate_ids + rows.length := by
  induction rows with
  | nil =>
    intro st st' h
    simp only [detectLoop] at h
    injection h with h
    subst h
    simp [countNew]
  | cons r rs ih =>
    intro st st' h
    simp only [detectLoop] at h
    cases hs : detectStep st r with
    | error e => rw [hs] at h; exact absurd h (by simp)
    | ok st1 =>
      rw [hs] at h
      have h2 := ih st1 st' h
      obtain ⟨hd, hseen⟩ := detectStep_ok_dup_seen hs
      by_cases hc : cidOf r ∈ st.2
      · rw [if_pos hc] at hd hseen
        simp only [List.map_cons, countNew, if_pos hc]
        rw [hseen] at h2
        simp only [List.length_cons]
        omega
      · rw [if_neg hc] at hd hseen
        simp only [List.map_cons, countNew, if_neg hc]
        rw [hseen] at h2
        simp only [List.length_cons]
        omega

/-- C3: on a successful pass, `duplicate_ids` equals the number of rows
minus the number of distinct trimmed `customer_id` values (absence read as
the empty string): the first occurrence of each id, the empty string
included, is never counted, every later occurrence exactly once. -/
theorem C3_duplicates (rows : List Row) (c : IssueCounters)
    (h : detect_issues rows = .ok c) :
    c.duplicate_ids + ((rows.map cidOf).toFinset).card = rows.length ∧
    c.duplicate_ids = rows.length - ((rows.map cidOf).toFinset).card := by
  unfold detect_issues at h
  cases hl : detectLoop rows (⟨0, 0, 0⟩, []) with
  | error e => rw [hl] at h; exact absurd h (by simp)
  | ok st =>
    rw [hl] at h
    injection h with h
    have hinv := detectLoop_dup rows _ _ hl
    rw [countNew_card] at hinv
    simp only [List.toFinset_nil, Finset.sdiff_empty] at hinv
    rw [h] at hinv
    constructor <;> omega

/-- The worked example of the specification: ids 1, 1, 2; one blank name;
one minor and one unparsable age. -/
def exRows : List Row :=
  [[("customer_id", some "1"), ("name", some "Ann"), ("age", some "30")],
   [("customer_id", some "1"), ("name", some ""), ("age", some "15")],
   [("customer_id", some "2"), ("name", some "Bo"), ("age", some "abc")]]

/-- Witness for C3 on the worked example of the specification. -/
theorem C3_duplicates_witness :
    (⟨1, 1, 2⟩ : IssueCounters).duplicate_ids +
        ((exRows.map cidOf).toFinset).card = exRows.length ∧
    (⟨1, 1, 2⟩ : IssueCounters).duplicate_ids =
        exRows.length - ((exRows.map cidOf).toFinset).card :=
  C3_duplicates exRows ⟨1, 1, 2⟩ (by decide)

/-! ### Filesystem lemmas -/

/-- `mkdirp` never changes what a read returns. -/
theorem FS.read_mkdirp (fs : FS) (d p : String) :
    (fs.mkdirp d).read p = fs.read p := by
  simp [FS.read, FS.mkdirp_files]

/-- Reading back the path just written. -/
theorem FS.read_write_self (fs : FS) (p c : String) :
    (fs.writeFile p c).read p = some c := by
  simp [FS.read, FS.writeFile, List.lookup]

/-- A write leaves every other path unchanged. -/
theorem FS.read_write_ne (fs : FS) (p q c : String) (h : q ≠ p) :
    (fs.writeFile p c).read q = fs.read q := by
  have hb : (q == p) = false := beq_eq_false_iff_ne.mpr h
  simp [FS.read, FS.writeFile, List.lookup, hb]

/-- The landing target of any run is never the log file. -/
theorem targetPath_ne_logFilePath (ts : String) :
    targetPath ts ≠ logFilePath := by
  intro h
  have hd := congrArg String.data h
  simp only [targetPath, logFilePath, LANDING_DIR, LOGS_DIR,
    String.data_append] at hd
  simp at hd

/-! ### C4, C6, C7, C9 -/

/-- C4: with no file at the source path, `run_ingestion` raises a
"not found" error whose message names the missing path, writes no file
(landing file or log entry): the only state change is the creation of the
logs and landing directories in step 1. -/
theorem C4_missing_source (env ts : String) (fs : FS)
    (h : fs.read SOURCE_FILE = none) :
    run_ingestion env ts fs =
      ((fs.mkdirp LOGS_DIR).mkdirp LANDING_DIR,
        .error (.fileNotFound ("Source file not found: " ++ SOURCE_FILE))) ∧
    (run_ingestion env ts fs).1.files = fs.files := by
  have h1 : ((fs.mkdirp LOGS_DIR).mkdirp LANDING_DIR).read SOURCE_FILE = none := by
    rw [FS.read_mkdirp, FS.read_mkdirp]; exact h
  have hr : run_ingestion env ts fs =
      ((fs.mkdirp LOGS_DIR).mkdirp LANDING_DIR,
        .error (.fileNotFound ("Source file not found: " ++ SOURCE_FILE))) := by
    simp only [run_ingestion, h1]
  refine ⟨hr, ?_⟩
  rw [hr]
  simp [FS.mkdirp_files]

/-- Witness for C4: the empty filesystem. -/
theorem C4_missing_source_witness :
    run_ingestion "dev" "20240101_000000" ⟨[], []⟩ =
      (((⟨[], []⟩ : FS).mkdirp LOGS_DIR).mkdirp LANDING_DIR,
        .error (.fileNotFound ("Source file not found: " ++ SOURCE_FILE))) ∧
    (run_ingestion "dev" "20240101_000000" ⟨[], []⟩).1.files =
      (⟨[], []⟩ : FS).files :=
  C4_missing_source "dev" "20240101_000000" ⟨[], []⟩ (by decide)

/-- C6: on a successful run the landing file holds exactly the bytes of the
source file. -/
theorem C6_copy_fidelity (env ts : String) (fs fs' : FS) (msg : String)
    (h : run_ingestion env ts fs = (fs', .ok msg)) :
    fs'.read (targetPath ts) = fs.read SOURCE_FILE ∧
    (fs.read SOURCE_FILE).isSome := by
  simp only [run_ingestion] at h
  cases hsrc : ((fs.mkdirp LOGS_DIR).mkdirp LANDING_DIR).read SOURCE_FILE with
  | none => simp only [hsrc] at h; simp at h
  | some content =>
    simp only [hsrc] at h
    cases hdi : detect_issues (parseCsv content) with
    | error e => simp only [hdi] at h; simp at h
    | ok issues =>
      simp only [hdi] at h
      rw [Prod.mk.injEq] at h
      obtain ⟨h1, _⟩ := h
      have hsv : fs.read SOURCE_FILE = some content := by
        rw [FS.read_mkdirp, FS.read_mkdirp] at hsrc
        exact hsrc
      refine ⟨?_, by rw [hsv]; rfl⟩
      rw [← h1, hsv, FS.appendFile,
        FS.read_write_ne _ _ _ _ (targetPath_ne_logFilePath ts),
        FS.read_write_self]

/-- A small filesystem holding a one-row source file. -/
def fsOneRow : FS :=
  ⟨[], [(SOURCE_FILE, "customer_id,name,age\n1,Ann,30\n")]⟩

set_option maxRecDepth 100000 in
/-- Witness for C6: a concrete one-row run. -/
theorem C6_copy_fidelity_witness :
    (run_ingestion "dev" "20240101_000000" fsOneRow).1.read
        (targetPath "20240101_000000") = fsOneRow.read SOURCE_FILE ∧
    (fsOneRow.read SOURCE_FILE).isSome :=
  C6_copy_fidelity "dev" "20240101_000000" fsOneRow
    (run_ingestion "dev" "20240101_000000" fsOneRow).1
    (mkLogMsg "dev" "20240101_000000" (targetPath "20240101_000000") 1 ⟨0, 0, 0⟩)
    (by decide)

/-- C7: a successful run appends the summary to the log file: the new log
content is the old content (empty when the file did not exist) followed by
the summary, never truncated or overwritten. -/
theorem C7_log_append (env ts : String) (fs fs' : FS) (msg : String)
    (h : run_ingestion env ts fs = (fs', .ok msg)) :
    fs'.read logFilePath = some ((fs.read logFilePath).getD "" ++ msg) := by
  simp only [run_ingestion] at h
  cases hsrc : ((fs.mkdirp LOGS_DIR).mkdirp LANDING_DIR).read SOURCE_FILE with
  | none => simp only [hsrc] at h; simp at h
  | some content =>
    simp only [hsrc] at h
    cases hdi : detect_issues (parseCsv content) with
    | error e => simp only [hdi] at h; simp at h
    | ok issues =>
      simp only [hdi] at h
      rw [Prod.mk.injEq] at h
      obtain ⟨h1, h2⟩ := h
      injection h2 with h2
      have hlog :
          (((fs.mkdirp LOGS_DIR).mkdirp LANDING_DIR).writeFile (targetPath ts)
              content).read logFilePath = fs.read logFilePath := by
        rw [FS.read_write_ne _ _ _ _ (targetPath_ne_logFilePath ts).symm,
          FS.read_mkdirp, FS.read_mkdirp]
      rw [← h1, FS.appendFile, FS.read_write_self, hlog, h2]

/-- A filesystem with a header-only source file and a pre-existing log. -/
def fsWithLog : FS :=
  ⟨[], [(SOURCE_FILE, "customer_id,name,age\n"), (logFilePath, "old entry\n")]⟩

set_option maxRecDepth 100000 in
/-- Witness for C7: the old log line survives in front of the new summary. -/
theorem C7_log_append_witness :
    (run_ingestion "dev" "20240101_000000" fsWithLog).1.read logFilePath =
      some ((fsWithLog.read logFilePath).getD "" ++
        mkLogMsg "dev" "20240101_000000" (targetPath "20240101_000000") 0
          ⟨0, 0, 0⟩) :=
  C7_log_append "dev" "20240101_000000" fsWithLog
    (run_ingestion "dev" "20240101_000000" fsWithLog).1
    (mkLogMsg "dev" "20240101_000000" (targetPath "20240101_000000") 0 ⟨0, 0, 0⟩)
    (by decide)

/-- C9: the `ENV` label has no effect on control flow or computed results.
Two runs differing only in the environment label create the same
directories, the same file names, identical content at every path other
than the log file, fail identically when they fail, and when they succeed
their summaries are the same text apart from the label spliced in after
the fixed `ENV=` prefix text. -/
theorem C9_env_noninterference (e1 e2 ts : String) (fs : FS) :
    (run_ingestion e1 ts fs).1.dirs = (run_ingestion e2 ts fs).1.dirs ∧
    (run_ingestion e1 ts fs).1.files.map Prod.fst =
      (run_ingestion e2 ts fs).1.files.map Prod.fst ∧
    (∀ p, p ≠ logFilePath →
      (run_ingestion e1 ts fs).1.read p = (run_ingestion e2 ts fs).1.read p) ∧
    (match (run_ingestion e1 ts fs).2, (run_ingestion e2 ts fs).2 with
     | .ok m1, .ok m2 =>
        ∃ tail, m1 = envTag ++ e1 ++ tail ∧ m2 = envTag ++ e2 ++ tail
     | .error x1, .error x2 => x1 = x2
     | _, _ => False) := by
  cases hsrc : ((fs.mkdirp LOGS_DIR).mkdirp LANDING_DIR).read SOURCE_FILE with
  | none =>
    refine ⟨?_, ?_, fun p hp => ?_, ?_⟩ <;> simp [run_ingestion, hsrc]
  | some content =>
    cases hdi : detect_issues (parseCsv content) with
    | error e =>
      refine ⟨?_, ?_, fun p hp => ?_, ?_⟩ <;> simp [run_ingestion, hsrc, hdi]
    | ok issues =>
      refine ⟨?_, ?_, fun p hp => ?_, ?_⟩
      · simp [run_ingestion, hsrc, hdi, FS.appendFile, FS.writeFile]
      · simp [run_ingestion, hsrc, hdi, FS.appendFile, FS.writeFile]
      · simp only [run_ingestion, hsrc, hdi]
        rw [FS.appendFile, FS.read_write_ne _ _ _ _ hp,
          FS.appendFile, FS.read_write_ne _ _ _ _ hp]
      · simp only [run_ingestion, hsrc, hdi]
        exact ⟨mkLogMsgRest ts (targetPath ts) (parseCsv content).length issues,
          rfl, rfl⟩

set_option maxRecDepth 100000 in
/-- Witness for C9: two concrete runs under different labels agree on the
landing file. -/
theorem C9_env_noninterference_witness :
    (run_ingestion "dev" "20240101_000000" fsOneRow).1.read
        (targetPath "20240101_000000") =
      (run_ingestion "prod" "20240101_000000" fsOneRow).1.read
        (targetPath "20240101_000000") :=
  (C9_env_noninterference "dev" "prod" "20240101_000000" fsOneRow).2.2.1
    (targetPath "20240101_000000") (by decide)
